import Mathlib

/-!
Verification development for the taiyaki offline utilities:
`bin/json_to_checkpoint.py` (JSON model → checkpoint converter) and
`misc/calibrate_qscores_byread.py` (q-score calibration script).

The Python code is shallowly embedded: numeric arrays become `List ℚ`
(or `List ℝ` where transcendental functions are involved), fallible code
returns `Except String _` (the error payload is the message written to
the error stream / the raised exception), and the external libraries
(numpy, torch, taiyaki.layers) are modelled by their documented
behaviour at the call sites used here.
-/

/-- Character-list prefix test (used to build a substring test mirroring
Python `re.search` on literal patterns). -/
def isPrefixList : List Char → List Char → Bool
  | [], _ => true
  | _ :: _, [] => false
  | a :: as, b :: bs => a == b && isPrefixList as bs

/-- `hasSubstr pat s` : does `pat` occur as a contiguous substring of `s`?
Mirrors Python `re.search(pat, s)` for patterns with no regex
metacharacters, and Python `pat in s`. -/
def hasSubstr (pat : List Char) : List Char → Bool
  | [] => pat.isEmpty
  | c :: rest => isPrefixList pat (c :: rest) || hasSubstr pat rest

/-- String-level wrapper for `hasSubstr`. -/
def strHas (s pat : String) : Bool := hasSubstr pat.data s.data

/-- A JSON parameter value in a layer's `params` mapping: either a flat
numeric array or a grouped list of arrays (guppy GRU format, fed to
`np.concatenate`).  Nested numeric content is kept flattened. -/
inductive JParam
  | flat (t : List ℚ)
  | grouped (g : List (List ℚ))
deriving DecidableEq

/-- The tensor contents obtained by `torch.Tensor(np.array(v))`:
the (flattened) numeric content of the value. -/
def JParam.toTensor : JParam → List ℚ
  | .flat t => t
  | .grouped g => g.flatten

/-- The tensor contents obtained by `torch.Tensor(np.concatenate(v))`
for a grouped value: concatenation of the groups along axis 0. -/
def JParam.concatGroups : JParam → List ℚ
  | .flat t => t
  | .grouped g => g.flatten

/-- One iteration of the name-dispatch in `set_params`
(json_to_checkpoint.py lines 43-65): given the JSON `params` mapping,
the required parameter name and the current value of the Python local
`jsn_layer_params` (`none` = still unbound), return the value of
`jsn_layer_params` after the if/elif chain, or the fatal error.
Note that the exact-key branch only assigns `jsn_name` (a variable that
is never read) and the `bias_hh` branch is `pass`: in both branches
`jsn_layer_params` is left unchanged, exactly as in the source. -/
def set_params_step (jsn_params : List (String × JParam)) (layer_name : String)
    (cur : Option (List ℚ)) : Except String (Option (List ℚ)) :=
  if (jsn_params.lookup layer_name).isSome then
    .ok cur
  else if strHas layer_name "weight_ih" && (jsn_params.lookup "iW").isSome then
    .ok (some (((jsn_params.lookup "iW").getD (.flat [])).concatGroups))
  else if strHas layer_name "weight_hh" && (jsn_params.lookup "sW").isSome then
    .ok (some (((jsn_params.lookup "sW").getD (.flat [])).concatGroups))
  else if strHas layer_name "bias_ih" && (jsn_params.lookup "b").isSome then
    .ok (some (((jsn_params.lookup "b").getD (.flat [])).concatGroups))
  else if strHas layer_name "bias_hh" then
    .ok cur
  else if strHas layer_name "weight" && (jsn_params.lookup "W").isSome then
    .ok (some (((jsn_params.lookup "W").getD (.flat [])).toTensor))
  else if strHas layer_name "bias" && (jsn_params.lookup "b").isSome then
    .ok (some (((jsn_params.lookup "b").getD (.flat [])).toTensor))
  else
    .error ("Incompatible layer parameter type (" ++ layer_name ++ ") encountered.\n")

/-- The `set_params` loop over the required parameter names of the layer
state dict, threading the Python local `jsn_layer_params` across
iterations.  The unconditional `params_od[layer_name] = jsn_layer_params`
(line 69) raises `NameError` when the local is still unbound, modelled
by the error case. -/
def set_params_go (jsn_params : List (String × JParam)) :
    List String → Option (List ℚ) → List (String × List ℚ) →
    Except String (List (String × List ℚ))
  | [], _, acc => .ok acc
  | n :: ns, cur, acc =>
    match set_params_step jsn_params n cur with
    | .error e => .error e
    | .ok none => .error "NameError: jsn_layer_params referenced before assignment"
    | .ok (some t) => set_params_go jsn_params ns (some t) (acc ++ [(n, t)])

/-- `set_params(layer, jsn_params)` (json_to_checkpoint.py lines 39-78):
the layer is represented by the ordered list of its required state-dict
parameter names; the result is the ordered dict of values loaded into
the layer. -/
def set_params (state_names : List String) (jsn_params : List (String × JParam)) :
    Except String (List (String × List ℚ)) :=
  set_params_go jsn_params state_names none []

/-- The collapse-alphabet derivation in the `GlobalNormTwoStateCatMod`
branch of `parse_sublayer` (json_to_checkpoint.py lines 116-122).
Python string indexing out of range raises `IndexError`, modelled by
`none`. -/
def collapseAlphabet : List Char → List ℕ → ℕ → Option (List Char)
  | _, [], _ => some []
  | output_alphabet, can_i_nmod :: rest, curr_can_base =>
    match output_alphabet.get? curr_can_base with
    | none => none
    | some c =>
      match collapseAlphabet output_alphabet rest (curr_can_base + can_i_nmod + 1) with
      | none => none
      | some s => some (List.replicate (can_i_nmod + 1) c ++ s)

/-- Entry point of the collapse-alphabet loop: `curr_can_base` starts at 0. -/
def deriveCollapseAlphabet (output_alphabet : List Char) (can_nmods : List ℕ) :
    Option (List Char) :=
  collapseAlphabet output_alphabet can_nmods 0

/-- A JSON sublayer descriptor (converter input).  `sublayers` holds the
nested descriptor used by the `reverse` wrapper; `none` models a missing
key (Python `KeyError`). -/
structure Sublayer where
  type : String
  activation : Option String
  insize : ℕ
  size : ℕ
  winlen : ℕ
  stride : ℕ
  output_alphabet : List Char
  can_nmods : List ℕ
  sublayers : Option (String × Option String × ℕ × ℕ × ℕ × ℕ × List Char ×
    List ℕ × List (String × JParam))
  params : List (String × JParam)

/-- `COMPATIBLE_LAYERS` (json_to_checkpoint.py lines 21-26). -/
def COMPATIBLE_LAYERS : List String :=
  ["convolution", "GruMod", "reverse", "GlobalNormTwoState", "GlobalNormTwoStateCatMod"]

/-- A converted layer is represented by the state dict that `set_params`
loaded into it. -/
def ConvertedLayer := List (String × List ℚ)

/-- `parse_sublayer` (json_to_checkpoint.py lines 80-134).
The external layer constructors (`Convolution`, `GruMod`, ...) from
`taiyaki.layers` are abstracted by `mkLayer`, giving the ordered list of
state-dict parameter names that the constructed layer requires; the
external `AlphabetInfo` and `nbase_flipflop` are opaque and do not affect
the observable behaviour modelled here beyond the collapse-alphabet
derivation, which can raise `IndexError`.  A `type` outside the five
handled kinds leaves the Python local `layer` unbound and the subsequent
`set_params(layer, ...)` call raises `NameError`. -/
def parse_sublayer (mkLayer : Sublayer → List String) (sublayer : Sublayer) :
    Except String ConvertedLayer :=
  if sublayer.type == "convolution" then
    if sublayer.activation != some "tanh" then
      .error ("Incompatible convolutional layer activation fucntion (" ++
        sublayer.type ++ ") encountered.\n")
    else
      set_params (mkLayer sublayer) sublayer.params
  else if sublayer.type == "GruMod" then
    set_params (mkLayer sublayer) sublayer.params
  else if sublayer.type == "reverse" then
    match sublayer.sublayers with
    | none => .error "KeyError: sublayers"
    | some (ty, act, insz, sz, wl, st, oa, cn, ps) =>
      set_params (mkLayer ⟨ty, act, insz, sz, wl, st, oa, cn, none, ps⟩) ps
  else if sublayer.type == "GlobalNormTwoState" then
    set_params (mkLayer sublayer) sublayer.params
  else if sublayer.type == "GlobalNormTwoStateCatMod" then
    match deriveCollapseAlphabet sublayer.output_alphabet sublayer.can_nmods with
    | none => .error "IndexError: string index out of range"
    | some _ => set_params (mkLayer sublayer) sublayer.params
  else
    .error "NameError: layer referenced before assignment"

/-- The offending layer types computed by
`set(layer_types).difference(COMPATIBLE_LAYERS)` in `main`
(json_to_checkpoint.py line 143), as a list of first occurrences. -/
def incompatibleTypes (layer_types : List String) : List String :=
  (layer_types.filter (fun t => !COMPATIBLE_LAYERS.contains t)).dedup

/-- `main` of the converter (json_to_checkpoint.py lines 136-155): the
up-front layer-type compatibility check over the whole sublayer list,
then parsing of each sublayer, then the checkpoint write.  The `.ok`
payload is the content handed to `torch.save`: a `.error` result means
the process exited before any layer was constructed or any output file
written. -/
def converter_main (mkLayer : Sublayer → List String) (sublayers : List Sublayer) :
    Except String (List ConvertedLayer) :=
  let layer_types := sublayers.map Sublayer.type
  if incompatibleTypes layer_types ≠ [] then
    .error ("Incompatible layer type(s) (" ++
      String.intercalate ", " (incompatibleTypes layer_types) ++ ") encountered.\n")
  else
    sublayers.mapM (parse_sublayer mkLayer)

/-- An alignment-summary record: read identifier, accuracy, alignment
length (calibrate_qscores_byread.py, output of `get_alignment_data`). -/
structure AlignRec where
  id : String
  acc : ℚ
  len : ℤ
deriving DecidableEq

/-- Maximum of a rational list (0 for the empty list; only used on
non-empty lists). -/
def maxQ : List ℚ → ℚ
  | [] => 0
  | [x] => x
  | x :: y :: ys => max x (maxQ (y :: ys))

/-- `np.argmax` on a rational vector, modelled from numpy's documented
semantics: the index of the first occurrence of the maximum value
(numpy is external to the repository). -/
def np_argmax : List ℚ → ℕ
  | [] => 0
  | [_] => 0
  | x :: y :: ys => if x < maxQ (y :: ys) then np_argmax (y :: ys) + 1 else 0

/-- The boolean-mask selection `alignment_ids == fastq_id` applied to
the alignment records (calibrate_qscores_byread.py lines 209-210). -/
def alignMatches (align : List AlignRec) (fastq_id : String) : List AlignRec :=
  align.filter (fun r => r.id == fastq_id)

/-- The body of the per-read loop in `merge_align_fastq_data`
(calibrate_qscores_byread.py lines 208-220): the alignment records whose
identifier equals the basecall identifier are gathered; zero matches
leave the preinitialised `(NaN, -1)` pair (NaN modelled as `none`), one
match is used directly, several matches select index `np.argmax` of the
matched accuracies from the parallel accuracy/length arrays. -/
def mergeOne (align : List AlignRec) (fastq_id : String) : Option ℚ × ℤ :=
  match alignMatches align fastq_id with
  | [] => (none, -1)
  | [a] => (some a.acc, a.len)
  | ms =>
    (some ((ms.map AlignRec.acc).getD (np_argmax (ms.map AlignRec.acc)) 0),
      (ms.map AlignRec.len).getD (np_argmax (ms.map AlignRec.acc)) 0)

/-- `merge_align_fastq_data` (calibrate_qscores_byread.py lines 173-225):
elementwise over the basecall identifiers. -/
def merge_align_fastq_data (fastq_ids : List String) (align : List AlignRec) :
    List (Option ℚ × ℤ) :=
  fastq_ids.map (mergeOne align)

/-- The mask `f = ~np.isnan(accuracies)` (line 317): accuracy present. -/
def maskNotNan (accs : List (Option ℚ)) : List Bool :=
  accs.map Option.isSome

/-- `coverage_fraction = alignment_lens / fastq_lens` (lines 319-320),
elementwise as rationals. -/
def coverageFrac (alens flens : List ℤ) : List ℚ :=
  List.zipWith (fun (a f : ℤ) => (a : ℚ) / (f : ℚ)) alens flens

/-- The mask `g = coverage_fraction > min_coverage` (line 323). -/
def maskCoverage (alens flens : List ℤ) (min_coverage : ℚ) : List Bool :=
  (coverageFrac alens flens).map (fun c => decide (min_coverage < c))

/-- The mask `h = fastqscores >= min_fastqscore` (line 325). -/
def maskQscore (qs : List ℚ) (min_fastqscore : ℚ) : List Bool :=
  qs.map (fun q => decide (min_fastqscore ≤ q))

/-- Elementwise conjunction of boolean masks (`f & g`). -/
def andMask (m1 m2 : List Bool) : List Bool :=
  List.zipWith and m1 m2

/-- Boolean-mask indexing `xs[m]` on parallel arrays. -/
def boolMask {α : Type} (xs : List α) (m : List Bool) : List α :=
  (List.zip xs m).filterMap (fun p => if p.2 then some p.1 else none)

/-- `filter_data` (calibrate_qscores_byread.py lines 290-334): returns
the filtered accuracy and q-score arrays together with the four printed
counts (total, after the un-aligned filter, after also the coverage
filter, after also the q-score filter). -/
def filter_data (accs : List (Option ℚ)) (qs : List ℚ) (flens alens : List ℤ)
    (min_coverage min_fastqscore : ℚ) :
    (List (Option ℚ) × List ℚ) × (ℕ × ℕ × ℕ × ℕ) :=
  let f := maskNotNan accs
  let g := maskCoverage alens flens min_coverage
  let h := maskQscore qs min_fastqscore
  let fg := andMask f g
  let fgh := andMask fg h
  ((boolMask accs fgh, boolMask qs fgh),
    (accs.length, (boolMask accs f).length,
      (boolMask accs fg).length, (boolMask accs fgh).length))

/-- A read row seen by `filter_data`: the `nread`-th entries of the four
parallel input arrays. -/
structure CalRead where
  acc : Option ℚ
  q : ℚ
  flen : ℤ
  alen : ℤ

/-- Zip the four parallel arrays of `filter_data` into rows. -/
def calReads : List (Option ℚ) → List ℚ → List ℤ → List ℤ → List CalRead
  | a :: as, q :: qs, f :: fs, l :: ls => ⟨a, q, f, l⟩ :: calReads as qs fs ls
  | _, _, _, _ => []

/-- The per-read keep predicate of `filter_data`: aligned, coverage
strictly above threshold, mean q-score at least the minimum. -/
def keepRead (min_coverage min_fastqscore : ℚ) (r : CalRead) : Bool :=
  r.acc.isSome && decide (min_coverage < (r.alen : ℚ) / (r.flen : ℚ)) &&
    decide (min_fastqscore ≤ r.q)

/-- `fastq_file_qscore` (calibrate_qscores_byread.py lines 52-69), over
the reals: per-base error probabilities `10^(-q/10)`, their mean, and
the conversion back `-10*log10(mean)`. -/
noncomputable def fastq_file_qscore (qvector : List ℝ) : ℝ :=
  -10 * Real.logb 10
    ((qvector.map (fun q => (10 : ℝ) ^ (-q / 10))).sum / (qvector.length : ℝ))

/-- A parsed tabular alignment-summary file: the column names present,
plus the contents of each column viewed as strings (`colStr`) or as
numbers (`colNum`).  `fileio.readtsv` is external to the repository. -/
structure TsvTable where
  cols : List String
  colStr : String → List String
  colNum : String → List ℚ

/-- The columns required to interpret the file as a Guppy alignment
summary (calibrate_qscores_byread.py lines 139-142). -/
def guppyCols : List String :=
  ["read_id", "alignment_accuracy", "alignment_strand_end", "alignment_strand_start"]

/-- The columns required to interpret the file as a Taiyaki alignment
summary (calibrate_qscores_byread.py lines 152-158). -/
def taiyakiCols : List String :=
  ["query", "accuracy", "reference_end", "reference_start", "insertion", "deletion"]

/-- The message of the exception raised when neither schema is present
(calibrate_qscores_byread.py lines 165-170), transcribed verbatim from
the source (including the misspelt column names and the stray double
space); the Python `repr` quoting of the found column names in
`columnlist` is not reproduced. -/
def alignSummaryErrMsg (cols : List String) : String :=
  "Alignment summary file must contain either columns " ++
  "(read_ids, alignment accuracy, alignment_strand_end, " ++
  "alignment_strand_start) or " ++
  "(id, accuracy, reference_end, reference_start, " ++
  "insertion, deletion  )" ++
  ". Columns are [" ++ String.intercalate ", " cols ++ "]"

/-- `get_alignment_data` (calibrate_qscores_byread.py lines 116-170):
try the Guppy schema (negative accuracies become missing), then the
Taiyaki schema, else raise.  Missing columns raise `ValueError` in the
source, caught to fall through to the next schema. -/
def get_alignment_data (t : TsvTable) :
    Except String (List String × List (Option ℚ) × List ℚ) :=
  if guppyCols.all (fun c => t.cols.contains c) then
    .ok (t.colStr "read_id",
      (t.colNum "alignment_accuracy").map (fun a => if a < 0 then none else some a),
      List.zipWith (fun e s => e - s)
        (t.colNum "alignment_strand_end") (t.colNum "alignment_strand_start"))
  else if taiyakiCols.all (fun c => t.cols.contains c) then
    .ok (t.colStr "query",
      (t.colNum "accuracy").map some,
      List.zipWith (fun a b => a + b)
        (List.zipWith (fun e s => e - s)
          (t.colNum "reference_end") (t.colNum "reference_start"))
        (List.zipWith (fun i d => i - d)
          (t.colNum "insertion") (t.colNum "deletion")))
  else
    .error (alignSummaryErrMsg t.cols)

/-- The command-line arguments of the calibrator relevant to input
resolution (calibrate_qscores_byread.py lines 23-40). -/
structure CalArgs where
  alignment_summary : Option String
  fastq : Option String
  input_directory : Option String

/-- Python `fi.endswith(".fastq")`. -/
def endsWithFastq (s : String) : Bool :=
  isPrefixList ".fastq".data.reverse s.data.reverse

/-- The `--input_directory` branch of the calibrator main block
(calibrate_qscores_byread.py lines 342-354): on success returns the
resolved fastq list and the value of the local
`alignment_summary_file` (`none` = still unbound). -/
def dirStep (args : CalArgs) (listdir : String → List String) :
    Except String (Option (List String) × Option String) :=
  match args.input_directory with
  | none => .ok (none, none)
  | some d =>
    let fl := ((listdir d).filter endsWithFastq).map (fun fi => d ++ "/" ++ fi)
    if fl.isEmpty then .error ("No fastq files found in " ++ d)
    else .ok (some fl, some (d ++ "/alignment_summary.txt"))

/-- The calibrator main block (calibrate_qscores_byread.py lines
337-394): input resolution followed by the processing pipeline
(`read_fastqs`, `get_alignment_data`, the merge, the filter and the
regression, lines 370-387, abstracted as `pipeline`, whose result is
the reported slope/intercept pair).  The local
`alignment_summary_file` is assigned only in the input-directory and
explicit `--alignment_summary` branches; reading it while unbound
raises `NameError` before the pipeline produces any regression
output. -/
def calibrate_main (args : CalArgs) (listdir : String → List String)
    (pipeline : List String → String → ℚ × ℚ) : Except String (ℚ × ℚ) :=
  match dirStep args listdir with
  | .error e => .error e
  | .ok (fl0, asf0) =>
    let fl1 := match args.fastq with
      | none => fl0
      | some f => some [f]
    let asf1 := match args.alignment_summary with
      | none => asf0
      | some s => some s
    match fl1 with
    | none => .error ("You must supply a directory containing " ++
        "fastqs or the path to a fastq file")
    | some fl =>
      match asf1 with
      | none => .error "NameError: alignment_summary_file is not defined"
      | some asf => .ok (pipeline fl asf)

/-- C1: the claim states that an exact key match in the JSON params is
used as the source array for the matching state-dict parameter.  In the
source the exact-match branch only assigns the never-read variable
`jsn_name`, so the value actually stored is the stale
`jsn_layer_params` from an earlier parameter (here the array `[7]`
resolved for `bias` from key `b`, although key `weight` holds `[5]`),
and a `NameError` if the exact match is the first parameter. -/
theorem set_params_exact_key_ignored :
    set_params ["bias", "weight"] [("weight", .flat [5]), ("b", .flat [7])] =
      .ok [("bias", [7]), ("weight", [7])] ∧
    List.lookup "weight" [("weight", JParam.flat [5]), ("b", JParam.flat [7])] =
      some (.flat [5]) ∧
    set_params ["weight"] [("weight", .flat [5])] =
      .error "NameError: jsn_layer_params referenced before assignment" :=
  ⟨rfl, rfl, rfl⟩

/-- C2: the claim states that a `bias_hh` parameter is populated with
its existing value or zero, never with a value left over from a
different parameter.  In the source the `bias_hh` branch is `pass`, yet
line 69 still stores the current `jsn_layer_params`: after `bias_ih`
resolved `[1, 2, 3]` from key `b`, the `bias_hh` parameter receives that
same leftover array; if `bias_hh` comes first, a `NameError` is raised
instead. -/
theorem set_params_bias_hh_leftover :
    set_params ["bias_ih_l0", "bias_hh_l0"] [("b", .grouped [[1], [2], [3]])] =
      .ok [("bias_ih_l0", [1, 2, 3]), ("bias_hh_l0", [1, 2, 3])] ∧
    set_params ["bias_hh_l0"] [("b", .grouped [[1], [2], [3]])] =
      .error "NameError: jsn_layer_params referenced before assignment" :=
  ⟨rfl, rfl⟩

/-- C4 counterexample: with `output_alphabet = "ACGT"` (length 4) and
`can_nmods = [1, 0, 0, 0]` the loop indexes position 4 of the
4-character alphabet, raising `IndexError`: no collapse alphabet is
derived at all, so none of length 5 with the first base twice. -/
theorem collapse_acgt_index_error :
    deriveCollapseAlphabet "ACGT".data [1, 0, 0, 0] = none ∧
    ¬ ∃ s, deriveCollapseAlphabet "ACGT".data [1, 0, 0, 0] = some s ∧
      s.length = 5 ∧ s.count 'A' = 2 := by
  refine ⟨rfl, ?_⟩
  rintro ⟨s, hs, -⟩
  rw [show deriveCollapseAlphabet "ACGT".data [1, 0, 0, 0] = none from rfl] at hs
  exact Option.noConfusion hs

/-- C4 amended: for a `GlobalNormTwoStateCatMod` layer the
`output_alphabet` must already contain the modified bases, here 5
characters with the single modification of the first base adjacent to
it (`"AMCGT"`); then the derived collapse alphabet is `"AACGT"`: length
5, with the first base `A` appearing twice. -/
theorem collapse_amcgt_len5 :
    deriveCollapseAlphabet "AMCGT".data [1, 0, 0, 0] = some "AACGT".data ∧
    "AACGT".data.length = 5 ∧
    "AMCGT".data.getD 0 default = 'A' ∧
    "AACGT".data.count 'A' = 2 := by
  refine ⟨rfl, rfl, rfl, ?_⟩
  decide

/-- C9: the claim states that a convolution sublayer whose activation
is not `tanh` aborts with the unsupported activation value in the
error-stream message.  The source formats `sublayer['type']` into the
message instead, so for activation `relu` the message names
`convolution` and does not contain `relu` at all. -/
theorem convolution_bad_activation_message (mkLayer : Sublayer → List String) :
    parse_sublayer mkLayer
      ⟨"convolution", some "relu", 1, 1, 1, 1, [], [], none, []⟩ =
      .error ("Incompatible convolutional layer activation fucntion " ++
        "(convolution) encountered.\n") ∧
    strHas ("Incompatible convolutional layer activation fucntion " ++
      "(convolution) encountered.\n") "relu" = false ∧
    strHas ("Incompatible convolutional layer activation fucntion " ++
      "(convolution) encountered.\n") "convolution" = true := by
  refine ⟨rfl, ?_, ?_⟩ <;> decide

/-- C9 witness: the theorem applied to a concrete layer constructor. -/
theorem convolution_bad_activation_message_witness :
    parse_sublayer (fun _ => [])
      ⟨"convolution", some "relu", 1, 1, 1, 1, [], [], none, []⟩ =
      .error ("Incompatible convolutional layer activation fucntion " ++
        "(convolution) encountered.\n") :=
  (convolution_bad_activation_message (fun _ => [])).1

/-- C10: with `--fastq` supplied but neither `--input_directory` nor
`--alignment_summary`, neither branch that assigns the local
`alignment_summary_file` runs, and its unconditional use raises
`NameError` before the pipeline produces any regression output. -/
theorem calibrate_fastq_only_fails (f : String) (listdir : String → List String)
    (pipeline : List String → String → ℚ × ℚ) :
    calibrate_main ⟨none, some f, none⟩ listdir pipeline =
      .error "NameError: alignment_summary_file is not defined" := rfl

/-- C10 witness: the theorem at concrete arguments. -/
theorem calibrate_fastq_only_fails_witness :
    calibrate_main ⟨none, some "reads.fastq", none⟩ (fun _ => [])
      (fun _ _ => (0, 0)) =
      .error "NameError: alignment_summary_file is not defined" :=
  calibrate_fastq_only_fails "reads.fastq" (fun _ => []) (fun _ _ => (0, 0))

/-- C8: the claim states that when neither schema is present the fatal
error message names both expected column sets and the columns found.
The raised message does list the columns found (`foo` below), but it
misnames the expected sets: it nowhere contains the required column
names `query` (it says `id`) or `alignment_accuracy` (it says
`alignment accuracy`). -/
theorem align_summary_error_message :
    get_alignment_data ⟨["foo"], fun _ => [], fun _ => []⟩ =
      .error (alignSummaryErrMsg ["foo"]) ∧
    strHas (alignSummaryErrMsg ["foo"]) "foo" = true ∧
    strHas (alignSummaryErrMsg ["foo"]) "alignment_strand_end" = true ∧
    strHas (alignSummaryErrMsg ["foo"]) "query" = false ∧
    strHas (alignSummaryErrMsg ["foo"]) "alignment_accuracy" = false := by
  refine ⟨rfl, ?_, ?_, ?_, ?_⟩ <;> decide

/-- C3: if any sublayer of the JSON model has a type outside the
compatible set, the converter terminates with the up-front
incompatible-layer-type error (the `.error` result precedes all layer
construction and means no checkpoint is written), and the list
interpolated into the message consists exactly of the offending
types. -/
theorem converter_incompatible_type_aborts (mkLayer : Sublayer → List String)
    (sublayers : List Sublayer)
    (h : ∃ s ∈ sublayers, s.type ∉ COMPATIBLE_LAYERS) :
    converter_main mkLayer sublayers =
      .error ("Incompatible layer type(s) (" ++
        String.intercalate ", " (incompatibleTypes (sublayers.map Sublayer.type)) ++
        ") encountered.\n") ∧
    ∀ t, t ∈ incompatibleTypes (sublayers.map Sublayer.type) ↔
      (t ∈ sublayers.map Sublayer.type ∧ t ∉ COMPATIBLE_LAYERS) := by
  have hmem : ∀ t, t ∈ incompatibleTypes (sublayers.map Sublayer.type) ↔
      (t ∈ sublayers.map Sublayer.type ∧ t ∉ COMPATIBLE_LAYERS) := by
    intro t
    simp [incompatibleTypes, List.mem_dedup, List.mem_filter]
  have hne : incompatibleTypes (sublayers.map Sublayer.type) ≠ [] := by
    obtain ⟨s, hs, hst⟩ := h
    intro hnil
    have : s.type ∈ incompatibleTypes (sublayers.map Sublayer.type) :=
      (hmem s.type).mpr ⟨List.mem_map_of_mem _ hs, hst⟩
    rw [hnil] at this
    exact List.not_mem_nil _ this
  refine ⟨?_, hmem⟩
  simp [converter_main, hne]

/-- C3 witness: a one-layer model of type `bogus` aborts with the
incompatible-layer-type error naming `bogus`. -/
theorem converter_incompatible_type_aborts_witness :
    (∃ s ∈ [(⟨"bogus", none, 0, 0, 0, 0, [], [], none, []⟩ : Sublayer)],
      s.type ∉ COMPATIBLE_LAYERS) ∧
    converter_main (fun _ => []) [⟨"bogus", none, 0, 0, 0, 0, [], [], none, []⟩] =
      .error "Incompatible layer type(s) (bogus) encountered.\n" := by
  have h : ∃ s ∈ [(⟨"bogus", none, 0, 0, 0, 0, [], [], none, []⟩ : Sublayer)],
      s.type ∉ COMPATIBLE_LAYERS := ⟨_, List.mem_singleton.mpr rfl, by decide⟩
  exact ⟨h, (converter_incompatible_type_aborts (fun _ => []) _ h).1⟩

theorem maxQ_cons (x y : ℚ) (ys : List ℚ) :
    maxQ (x :: y :: ys) = max x (maxQ (y :: ys)) := rfl

theorem np_argmax_lt_length : ∀ (xs : List ℚ), xs ≠ [] → np_argmax xs < xs.length
  | [], h => absurd rfl h
  | [_], _ => by simp [np_argmax]
  | x :: y :: ys, _ => by
    rw [np_argmax]
    split
    · have := np_argmax_lt_length (y :: ys) (by simp)
      simpa using Nat.succ_lt_succ this
    · simp

theorem getD_np_argmax : ∀ (xs : List ℚ), xs ≠ [] → xs.getD (np_argmax xs) 0 = maxQ xs
  | [], h => absurd rfl h
  | [_], _ => rfl
  | x :: y :: ys, _ => by
    have ih := getD_np_argmax (y :: ys) (by simp)
    by_cases hx : x < maxQ (y :: ys)
    · rw [show np_argmax (x :: y :: ys) = np_argmax (y :: ys) + 1 from by
        rw [np_argmax]; simp [hx]]
      rw [List.getD_cons_succ, ih, maxQ_cons, max_eq_right (le_of_lt hx)]
    · rw [show np_argmax (x :: y :: ys) = 0 from by rw [np_argmax]; simp [hx]]
      rw [List.getD_cons_zero, maxQ_cons, max_eq_left (not_lt.mp hx)]

theorem getD_le_maxQ : ∀ (xs : List ℚ) (j : ℕ), j < xs.length → xs.getD j 0 ≤ maxQ xs
  | [], j, h => absurd h (by simp)
  | [x], 0, _ => le_refl x
  | [x], j + 1, h => by simp at h
  | x :: y :: ys, 0, _ => by
    rw [List.getD_cons_zero, maxQ_cons]; exact le_max_left _ _
  | x :: y :: ys, j + 1, h => by
    rw [List.getD_cons_succ, maxQ_cons]
    exact le_trans (getD_le_maxQ (y :: ys) j (by simpa using h)) (le_max_right _ _)

theorem getD_lt_of_lt_np_argmax :
    ∀ (xs : List ℚ) (j : ℕ), j < np_argmax xs → xs.getD j 0 < maxQ xs
  | [], j, h => by simp [np_argmax] at h
  | [x], j, h => by simp [np_argmax] at h
  | x :: y :: ys, j, h => by
    by_cases hx : x < maxQ (y :: ys)
    · rw [np_argmax, if_pos hx] at h
      rw [maxQ_cons, max_eq_right (le_of_lt hx)]
      cases j with
      | zero => simpa using hx
      | succ j =>
        rw [List.getD_cons_succ]
        exact getD_lt_of_lt_np_argmax (y :: ys) j (Nat.lt_of_succ_lt_succ h)
    · rw [np_argmax, if_neg hx] at h
      exact absurd h (Nat.not_lt_zero j)

theorem getD_map_acc (L : List AlignRec) (k : ℕ) (hk : k < L.length) :
    (L.map AlignRec.acc).getD k 0 = (L.getD k ⟨"", 0, 0⟩).acc := by
  rw [List.getD_eq_getElem _ _ (by simpa using hk), List.getElem_map,
    List.getD_eq_getElem _ _ hk]

theorem getD_map_len (L : List AlignRec) (k : ℕ) (hk : k < L.length) :
    (L.map AlignRec.len).getD k 0 = (L.getD k ⟨"", 0, 0⟩).len := by
  rw [List.getD_eq_getElem _ _ (by simpa using hk), List.getElem_map,
    List.getD_eq_getElem _ _ hk]

/-- C5: for every basecall read identifier (position `i` of the fastq
identifier list), the merged result is: `(NaN, -1)` when no alignment
record matches; the matching record's accuracy and length when exactly
one matches; and when several match, some index `k` of the match list
whose accuracy is greater or equal to every match (the maximum) and
strictly greater than every earlier match (first occurrence of the
maximum), with both the accuracy and the corresponding length taken at
that same index. -/
theorem merge_align_per_read (fastq_ids : List String) (align : List AlignRec)
    (i : ℕ) (hi : i < fastq_ids.length) :
    (alignMatches align (fastq_ids.getD i "") = [] →
      (merge_align_fastq_data fastq_ids align).getD i (none, 0) = (none, -1)) ∧
    (∀ a, alignMatches align (fastq_ids.getD i "") = [a] →
      (merge_align_fastq_data fastq_ids align).getD i (none, 0) =
        (some a.acc, a.len)) ∧
    (2 ≤ (alignMatches align (fastq_ids.getD i "")).length →
      ∃ k, k < (alignMatches align (fastq_ids.getD i "")).length ∧
        (merge_align_fastq_data fastq_ids align).getD i (none, 0) =
          (some ((alignMatches align (fastq_ids.getD i "")).getD k ⟨"", 0, 0⟩).acc,
            ((alignMatches align (fastq_ids.getD i "")).getD k ⟨"", 0, 0⟩).len) ∧
        (∀ j, j < (alignMatches align (fastq_ids.getD i "")).length →
          ((alignMatches align (fastq_ids.getD i "")).getD j ⟨"", 0, 0⟩).acc ≤
            ((alignMatches align (fastq_ids.getD i "")).getD k ⟨"", 0, 0⟩).acc) ∧
        (∀ j, j < k →
          ((alignMatches align (fastq_ids.getD i "")).getD j ⟨"", 0, 0⟩).acc <
            ((alignMatches align (fastq_ids.getD i "")).getD k ⟨"", 0, 0⟩).acc)) := by
  have hres : (merge_align_fastq_data fastq_ids align).getD i (none, 0) =
      mergeOne align (fastq_ids.getD i "") := by
    rw [merge_align_fastq_data, List.getD_eq_getElem _ _ (by simpa using hi),
      List.getElem_map, List.getD_eq_getElem fastq_ids "" hi]
  rw [hres]
  refine ⟨?_, ?_, ?_⟩
  · intro h
    simp only [mergeOne, h]
  · intro a h
    simp only [mergeOne, h]
  · intro h2
    rcases hms : alignMatches align (fastq_ids.getD i "") with _ | ⟨a, _ | ⟨b, rest⟩⟩
    · rw [hms] at h2; simp at h2
    · rw [hms] at h2; simp at h2
    · simp only [mergeOne, hms]
      have hlen : ((a :: b :: rest).map AlignRec.acc).length =
          (a :: b :: rest).length := by simp
      have hne : (a :: b :: rest).map AlignRec.acc ≠ [] := by simp
      have hk : np_argmax ((a :: b :: rest).map AlignRec.acc) <
          (a :: b :: rest).length := by
        rw [← hlen]; exact np_argmax_lt_length _ hne
      refine ⟨np_argmax ((a :: b :: rest).map AlignRec.acc), hk, ?_, ?_, ?_⟩
      · rw [getD_map_acc _ _ hk, getD_map_len _ _ hk]
      · intro j hj
        rw [← getD_map_acc _ _ hj, ← getD_map_acc _ _ hk, getD_np_argmax _ hne]
        exact getD_le_maxQ _ j (by rw [hlen]; exact hj)
      · intro j hj
        have hjlen : j < (a :: b :: rest).length := lt_trans hj hk
        rw [← getD_map_acc _ _ hjlen, ← getD_map_acc _ _ hk, getD_np_argmax _ hne]
        exact getD_lt_of_lt_np_argmax _ j hj

/-- C5 witness: one basecall read with two alignment records of
accuracy 1/2 and 9/10; the theorem applies and the merged result is the
higher accuracy 9/10 with its corresponding length 20. -/
theorem merge_align_per_read_witness :
    0 < (["r"] : List String).length ∧
    2 ≤ (alignMatches [(⟨"r", 1/2, 10⟩ : AlignRec), ⟨"r", 9/10, 20⟩]
      ((["r"] : List String).getD 0 "")).length ∧
    (∃ k, k < (alignMatches [(⟨"r", 1/2, 10⟩ : AlignRec), ⟨"r", 9/10, 20⟩]
        ((["r"] : List String).getD 0 "")).length ∧
      (merge_align_fastq_data ["r"]
          [(⟨"r", 1/2, 10⟩ : AlignRec), ⟨"r", 9/10, 20⟩]).getD 0 (none, 0) =
        (some ((alignMatches [(⟨"r", 1/2, 10⟩ : AlignRec), ⟨"r", 9/10, 20⟩]
            ((["r"] : List String).getD 0 "")).getD k ⟨"", 0, 0⟩).acc,
          ((alignMatches [(⟨"r", 1/2, 10⟩ : AlignRec), ⟨"r", 9/10, 20⟩]
            ((["r"] : List String).getD 0 "")).getD k ⟨"", 0, 0⟩).len) ∧
      (∀ j, j < (alignMatches [(⟨"r", 1/2, 10⟩ : AlignRec), ⟨"r", 9/10, 20⟩]
          ((["r"] : List String).getD 0 "")).length →
        ((alignMatches [(⟨"r", 1/2, 10⟩ : AlignRec), ⟨"r", 9/10, 20⟩]
          ((["r"] : List String).getD 0 "")).getD j ⟨"", 0, 0⟩).acc ≤
          ((alignMatches [(⟨"r", 1/2, 10⟩ : AlignRec), ⟨"r", 9/10, 20⟩]
            ((["r"] : List String).getD 0 "")).getD k ⟨"", 0, 0⟩).acc) ∧
      (∀ j, j < k →
        ((alignMatches [(⟨"r", 1/2, 10⟩ : AlignRec), ⟨"r", 9/10, 20⟩]
          ((["r"] : List String).getD 0 "")).getD j ⟨"", 0, 0⟩).acc <
          ((alignMatches [(⟨"r", 1/2, 10⟩ : AlignRec), ⟨"r", 9/10, 20⟩]
            ((["r"] : List String).getD 0 "")).getD k ⟨"", 0, 0⟩).acc)) ∧
    merge_align_fastq_data ["r"] [(⟨"r", 1/2, 10⟩ : AlignRec), ⟨"r", 9/10, 20⟩] =
      [(some (9/10), 20)] := by
  refine ⟨by decide, by decide, ?_, ?_⟩
  · exact (merge_align_per_read ["r"]
      [(⟨"r", 1/2, 10⟩ : AlignRec), ⟨"r", 9/10, 20⟩] 0 (by decide)).2.2 (by decide)
  · norm_num [merge_align_fastq_data, mergeOne, alignMatches, np_argmax, maxQ]

theorem boolMask_cons {α : Type} (x : α) (xs : List α) (b : Bool) (m : List Bool) :
    boolMask (x :: xs) (b :: m) = if b then x :: boolMask xs m else boolMask xs m := by
  cases b <;> simp [boolMask]

theorem keepRead_mk (mc mq : ℚ) (a : Option ℚ) (q : ℚ) (fl al : ℤ) :
    keepRead mc mq ⟨a, q, fl, al⟩ =
      (a.isSome && decide (mc < (al : ℚ) / (fl : ℚ)) && decide (mq ≤ q)) := rfl

theorem kept_accs_spec : ∀ (accs : List (Option ℚ)) (qs : List ℚ)
    (flens alens : List ℤ) (mc mq : ℚ),
    qs.length = accs.length → flens.length = accs.length → alens.length = accs.length →
    boolMask accs (andMask (andMask (maskNotNan accs) (maskCoverage alens flens mc))
        (maskQscore qs mq)) =
      ((calReads accs qs flens alens).filter (keepRead mc mq)).map CalRead.acc
  | [], qs, flens, alens, mc, mq, h1, h2, h3 => by
    have hq : qs = [] := List.length_eq_zero.mp h1
    subst hq
    simp [boolMask, andMask, maskNotNan, maskCoverage, maskQscore, coverageFrac, calReads]
  | a :: accs, [], flens, alens, mc, mq, h1, h2, h3 => by simp at h1
  | a :: accs, q :: qs, [], alens, mc, mq, h1, h2, h3 => by simp at h2
  | a :: accs, q :: qs, fl :: flens, [], mc, mq, h1, h2, h3 => by simp at h3
  | a :: accs, q :: qs, fl :: flens, al :: alens, mc, mq, h1, h2, h3 => by
    have ih := kept_accs_spec accs qs flens alens mc mq
      (by simpa using h1) (by simpa using h2) (by simpa using h3)
    simp only [maskNotNan, maskCoverage, maskQscore, coverageFrac, andMask] at ih
    simp only [maskNotNan, maskCoverage, maskQscore, coverageFrac, andMask,
      List.map_cons, List.zipWith_cons_cons, calReads, List.filter_cons, boolMask_cons,
      keepRead_mk]
    rcases Bool.dichotomy
        (a.isSome && decide (mc < (al : ℚ) / (fl : ℚ)) && decide (mq ≤ q)) with hb | hb
    · rw [if_neg (by simp [hb]), if_neg (by simp [hb]), ih]
    · rw [if_pos hb, if_pos hb, List.map_cons, ih]

theorem kept_qs_spec : ∀ (accs : List (Option ℚ)) (qs : List ℚ)
    (flens alens : List ℤ) (mc mq : ℚ),
    qs.length = accs.length → flens.length = accs.length → alens.length = accs.length →
    boolMask qs (andMask (andMask (maskNotNan accs) (maskCoverage alens flens mc))
        (maskQscore qs mq)) =
      ((calReads accs qs flens alens).filter (keepRead mc mq)).map CalRead.q
  | [], qs, flens, alens, mc, mq, h1, h2, h3 => by
    have hq : qs = [] := List.length_eq_zero.mp h1
    subst hq
    simp [boolMask, andMask, maskNotNan, maskCoverage, maskQscore, coverageFrac, calReads]
  | a :: accs, [], flens, alens, mc, mq, h1, h2, h3 => by simp at h1
  | a :: accs, q :: qs, [], alens, mc, mq, h1, h2, h3 => by simp at h2
  | a :: accs, q :: qs, fl :: flens, [], mc, mq, h1, h2, h3 => by simp at h3
  | a :: accs, q :: qs, fl :: flens, al :: alens, mc, mq, h1, h2, h3 => by
    have ih := kept_qs_spec accs qs flens alens mc mq
      (by simpa using h1) (by simpa using h2) (by simpa using h3)
    simp only [maskNotNan, maskCoverage, maskQscore, coverageFrac, andMask] at ih
    simp only [maskNotNan, maskCoverage, maskQscore, coverageFrac, andMask,
      List.map_cons, List.zipWith_cons_cons, calReads, List.filter_cons, boolMask_cons,
      keepRead_mk]
    rcases Bool.dichotomy
        (a.isSome && decide (mc < (al : ℚ) / (fl : ℚ)) && decide (mq ≤ q)) with hb | hb
    · rw [if_neg (by simp [hb]), if_neg (by simp [hb]), ih]
    · rw [if_pos hb, if_pos hb, List.map_cons, ih]

theorem count_f_spec : ∀ (accs : List (Option ℚ)) (qs : List ℚ)
    (flens alens : List ℤ),
    qs.length = accs.length → flens.length = accs.length → alens.length = accs.length →
    (boolMask accs (maskNotNan accs)).length =
      ((calReads accs qs flens alens).filter (fun r => r.acc.isSome)).length
  | [], qs, flens, alens, h1, h2, h3 => by
    have hq : qs = [] := List.length_eq_zero.mp h1
    subst hq
    simp [boolMask, maskNotNan, calReads]
  | a :: accs, [], flens, alens, h1, h2, h3 => by simp at h1
  | a :: accs, q :: qs, [], alens, h1, h2, h3 => by simp at h2
  | a :: accs, q :: qs, fl :: flens, [], h1, h2, h3 => by simp at h3
  | a :: accs, q :: qs, fl :: flens, al :: alens, h1, h2, h3 => by
    have ih := count_f_spec accs qs flens alens
      (by simpa using h1) (by simpa using h2) (by simpa using h3)
    simp only [maskNotNan] at ih
    simp only [maskNotNan, List.map_cons, calReads, List.filter_cons, boolMask_cons]
    rcases Bool.dichotomy a.isSome with hb | hb
    · rw [if_neg (by simp [hb]), if_neg (by simp [hb]), ih]
    · rw [if_pos hb, if_pos (by simpa using hb), List.length_cons, List.length_cons, ih]

theorem count_fg_spec : ∀ (accs : List (Option ℚ)) (qs : List ℚ)
    (flens alens : List ℤ) (mc : ℚ),
    qs.length = accs.length → flens.length = accs.length → alens.length = accs.length →
    (boolMask accs (andMask (maskNotNan accs) (maskCoverage alens flens mc))).length =
      ((calReads accs qs flens alens).filter
        (fun r => r.acc.isSome && decide (mc < (r.alen : ℚ) / (r.flen : ℚ)))).length
  | [], qs, flens, alens, mc, h1, h2, h3 => by
    have hq : qs = [] := List.length_eq_zero.mp h1
    subst hq
    simp [boolMask, andMask, maskNotNan, maskCoverage, coverageFrac, calReads]
  | a :: accs, [], flens, alens, mc, h1, h2, h3 => by simp at h1
  | a :: accs, q :: qs, [], alens, mc, h1, h2, h3 => by simp at h2
  | a :: accs, q :: qs, fl :: flens, [], mc, h1, h2, h3 => by simp at h3
  | a :: accs, q :: qs, fl :: flens, al :: alens, mc, h1, h2, h3 => by
    have ih := count_fg_spec accs qs flens alens mc
      (by simpa using h1) (by simpa using h2) (by simpa using h3)
    simp only [maskNotNan, maskCoverage, coverageFrac, andMask] at ih
    simp only [maskNotNan, maskCoverage, coverageFrac, andMask,
      List.map_cons, List.zipWith_cons_cons, calReads, List.filter_cons, boolMask_cons]
    rcases Bool.dichotomy (a.isSome && decide (mc < (al : ℚ) / (fl : ℚ))) with hb | hb
    · rw [if_neg (by simp [hb]), if_neg (by simp [hb]), ih]
    · rw [if_pos hb, if_pos (by simpa using hb), List.length_cons, List.length_cons, ih]

/-- C6: `filter_data` keeps exactly the reads with a present accuracy,
coverage (alignment length over basecall length) strictly above the
threshold, and mean q-score at least the minimum; the four printed
counts are the total and the sizes of the successively filtered sets;
and on 10 reads of which 3 are unaligned, 2 fail only the coverage
filter and 1 fails only the quality filter, it retains 4 reads and the
running counts are 7, 5, 4. -/
theorem filter_data_spec (accs : List (Option ℚ)) (qs : List ℚ)
    (flens alens : List ℤ) (mc mq : ℚ)
    (h1 : qs.length = accs.length) (h2 : flens.length = accs.length)
    (h3 : alens.length = accs.length) :
    filter_data accs qs flens alens mc mq =
      ((((calReads accs qs flens alens).filter (keepRead mc mq)).map CalRead.acc,
        ((calReads accs qs flens alens).filter (keepRead mc mq)).map CalRead.q),
        (accs.length,
          ((calReads accs qs flens alens).filter (fun r => r.acc.isSome)).length,
          ((calReads accs qs flens alens).filter
            (fun r => r.acc.isSome &&
              decide (mc < (r.alen : ℚ) / (r.flen : ℚ)))).length,
          ((calReads accs qs flens alens).filter (keepRead mc mq)).length)) ∧
    filter_data
        [some (9/10), some (9/10), some (9/10), some (9/10), none, none, none,
          some (9/10), some (9/10), some (9/10)]
        [10, 10, 10, 10, 10, 10, 10, 10, 10, 5]
        [100, 100, 100, 100, 100, 100, 100, 100, 100, 100]
        [90, 90, 90, 90, -1, -1, -1, 50, 50, 90] (4/5) 7 =
      (([some (9/10), some (9/10), some (9/10), some (9/10)],
        [10, 10, 10, 10]), (10, 7, 5, 4)) := by
  constructor
  · have e1 := kept_accs_spec accs qs flens alens mc mq h1 h2 h3
    have e2 := kept_qs_spec accs qs flens alens mc mq h1 h2 h3
    have e3 := count_f_spec accs qs flens alens h1 h2 h3
    have e4 := count_fg_spec accs qs flens alens mc h1 h2 h3
    simp only [filter_data]
    rw [e1, e2, e3, e4, List.length_map]
  · norm_num [filter_data, maskNotNan, maskCoverage, maskQscore, coverageFrac,
      andMask, boolMask, List.filterMap_cons]

/-- C6 witness: the specification equality applied at a concrete
one-read input. -/
theorem filter_data_spec_witness :
    (([(3 : ℚ)] : List ℚ).length = ([some (1 : ℚ)] : List (Option ℚ)).length ∧
      ([(2 : ℤ)] : List ℤ).length = ([some (1 : ℚ)] : List (Option ℚ)).length ∧
      ([(2 : ℤ)] : List ℤ).length = ([some (1 : ℚ)] : List (Option ℚ)).length) ∧
    filter_data [some 1] [3] [2] [2] (1/2) 1 =
      ((((calReads [some 1] [3] [2] [2]).filter (keepRead (1/2) 1)).map CalRead.acc,
        ((calReads [some 1] [3] [2] [2]).filter (keepRead (1/2) 1)).map CalRead.q),
        (([some (1 : ℚ)] : List (Option ℚ)).length,
          ((calReads [some 1] [3] [2] [2]).filter (fun r => r.acc.isSome)).length,
          ((calReads [some 1] [3] [2] [2]).filter
            (fun r => r.acc.isSome &&
              decide ((1/2 : ℚ) < (r.alen : ℚ) / (r.flen : ℚ)))).length,
          ((calReads [some 1] [3] [2] [2]).filter (keepRead (1/2) 1)).length)) := by
  refine ⟨⟨rfl, rfl, rfl⟩, ?_⟩
  exact (filter_data_spec [some 1] [3] [2] [2] (1/2) 1 rfl rfl rfl).1

/-- C7: for a non-empty per-base quality vector whose entries all equal
`q`, the mean q-score computed by `fastq_file_qscore` (error
probabilities `10^(-q/10)`, averaged, converted back with `-10*log10`)
is exactly `q`; with the all-zero vector this gives 0. -/
theorem fastq_qscore_const (qv : List ℝ) (q : ℝ) (hne : qv ≠ [])
    (hall : ∀ x ∈ qv, x = q) : fastq_file_qscore qv = q := by
  have hrep : qv = List.replicate qv.length q := List.eq_replicate_length.mpr hall
  have hpos : 0 < qv.length := List.length_pos.mpr hne
  have hn : (qv.length : ℝ) ≠ 0 := Nat.cast_ne_zero.mpr (Nat.pos_iff_ne_zero.mp hpos)
  simp only [fastq_file_qscore]
  conv_lhs => rw [hrep]
  rw [List.map_replicate, List.sum_replicate, List.length_replicate, nsmul_eq_mul,
    mul_div_cancel_left₀ _ hn, Real.logb_rpow (by norm_num) (by norm_num)]
  ring

/-- C7 witness: an all-zero quality vector of length 3 yields mean
q-score 0. -/
theorem fastq_qscore_const_witness :
    (([(0 : ℝ), 0, 0] : List ℝ) ≠ [] ∧ ∀ x ∈ ([(0 : ℝ), 0, 0] : List ℝ), x = 0) ∧
    fastq_file_qscore [0, 0, 0] = 0 :=
  ⟨⟨by simp, by simp⟩, fastq_qscore_const [0, 0, 0] 0 (by simp) (by simp)⟩
